import Mathlib

/-!
Shallow embedding of the reservation concurrency engine of the
plataforma-virtud repository (Firebase Cloud Functions `reservarActividad`,
`reservarTurno` and `procesarSuspension`).

Modelling conventions, chosen to stay faithful to the TypeScript source:

* Firestore timestamps are modelled by their `seconds` field as an `Int`
  (`Timestamp` below).  Every comparison the source performs on timestamps
  either is a comparison of the `seconds` fields (the overlap test in
  `reservarTurno` reads `.seconds` explicitly) or agrees with the
  seconds-only comparison on the decision being computed, so the admission
  decisions and cascade decisions are unchanged by dropping nanoseconds.
* A string field that the source tests for JS-truthiness (`!actividadId`,
  `!profesionalId`, ...) is modelled as `Option String`; `none` stands for
  an absent, `null` or empty (falsy) value.
* Numeric fields read through `|| d` (`cupoTomado || 1`, `cupo || 0`,
  `duracionMinutos || 0`) are modelled as `Nat` where `0` stands for any
  falsy value; the defaulting function is applied exactly where the source
  applies it.
* The Firestore database is a `Store`: one list per collection, documents
  keyed by `id`.  A `where field == v` clause excludes documents whose field
  is absent, exactly as Firestore does.
* `HttpsError` raised inside a transaction, plus the possibility of a
  non-`HttpsError` store failure (the second `catch` branch of the source), is
  the error type `TxError`; `TxError.internal` covers any non-`HttpsError`
  throw, such as `db.collection("terapias").doc(undefined)` rejecting an
  absent `terapiaId` of a candidate appointment.
-/

abbrev Timestamp := Int

structure Actividad where
  id : String
  cupo : Nat
  nombre : String
  deriving Repr, DecidableEq

structure Reserva where
  id : String
  actividadId : Option String
  fechaActividad : Option Timestamp
  cupoTomado : Nat
  estado : String
  motivoFalla : Option String
  motivoCancelacion : Option String
  fechaCancelacion : Option Timestamp
  deriving Repr, DecidableEq

structure Terapia where
  id : String
  duracionMinutos : Nat
  profesionalId : Option String
  nombre : String
  deriving Repr, DecidableEq

structure Turno where
  id : String
  terapiaId : Option String
  fechaTurno : Option Timestamp
  usuarioId : Option String
  estado : String
  motivoFalla : Option String
  motivoCancelacion : Option String
  fechaCancelacion : Option Timestamp
  deriving Repr, DecidableEq

structure Store where
  actividades : List Actividad
  reservas : List Reserva
  terapias : List Terapia
  turnos : List Turno
  deriving Repr, DecidableEq

inductive ErrorCode where
  | notFound
  | failedPrecondition
  | resourceExhausted
  | alreadyExists
  deriving Repr, DecidableEq

inductive TxError where
  | https (code : ErrorCode) (message : String)
  | internal
  deriving Repr, DecidableEq

/-- Outcome of one controller invocation, used to observe which path the
source function took (early return, delete, success, or the catch block). -/
inductive Resultado where
  | sinSnapshot
  | eliminado
  | exito
  | fallo (e : TxError)
  deriving Repr, DecidableEq

/-- Point read `db.collection("actividades").doc(id)`. -/
def findActividad (s : Store) (aid : String) : Option Actividad :=
  s.actividades.find? (fun a => a.id == aid)

/-- Point read `db.collection("terapias").doc(id)`. -/
def findTerapia (s : Store) (tid : String) : Option Terapia :=
  s.terapias.find? (fun te => te.id == tid)

/-- Seats taken by one reservation, `doc.data().cupoTomado || 1`: one seat
when the field is absent or 0. -/
def pesoCupo (r : Reserva) : Nat :=
  if r.cupoTomado = 0 then 1 else r.cupoTomado

/-- The occupancy query of `reservarActividad`: reservations of the same
activity and instant whose `estado` is `confirmada` or `pendiente`, the
triggering document excluded, summing `cupoTomado || 1`. -/
def cupoOcupado (s : Store) (aid : String) (fecha : Timestamp) (selfId : String) : Nat :=
  ((s.reservas.filter (fun r =>
      r.id != selfId &&
      r.actividadId == some aid &&
      r.fechaActividad == some fecha &&
      (r.estado == "confirmada" || r.estado == "pendiente"))).map pesoCupo).sum

def mensajeActividadNoExiste (aid : String) : String :=
  "La actividad con ID " ++ aid ++ " no existe."

def mensajeSinCupo (nombre : String) (fecha : Timestamp) (disponible : Int) : String :=
  "No hay cupos disponibles para la actividad " ++ nombre ++ " el " ++
    toString fecha ++ ". Cupo actual: " ++ toString disponible ++ "."

/-- The transaction body of `reservarActividad` (lines 64-112 of the
functions source): read the activity, recompute occupancy from live rows,
and abort with `resource-exhausted` when the request does not fit.  On
success the transaction writes nothing (the reservation document is left
as created). -/
def transaccionReserva (s : Store) (selfId aid : String) (fecha : Timestamp)
    (cupoTomado : Nat) : Except TxError Unit :=
  match findActividad s aid with
  | none => .error (.https .notFound (mensajeActividadNoExiste aid))
  | some actividad =>
    let cupoMaximo := actividad.cupo
    let ocupado := cupoOcupado s aid fecha selfId
    let cupoDisponible : Int := (cupoMaximo : Int) - (ocupado : Int)
    if cupoDisponible < (cupoTomado : Int) then
      .error (.https .resourceExhausted
        (mensajeSinCupo actividad.nombre fecha cupoDisponible))
    else
      .ok ()

/-- The message written to `motivoFalla` by the catch block: an
`HttpsError` keeps its message, anything else gets the generic text. -/
def mensajeDeFallo : TxError → String
  | .https _ m => m
  | .internal => "Error interno del servidor."

def marcarFallidaReserva (motivo : String) (r : Reserva) : Reserva :=
  { r with estado := "fallida", motivoFalla := some motivo }

def actualizarReserva (s : Store) (rid : String) (f : Reserva → Reserva) : Store :=
  { s with reservas := s.reservas.map (fun r => if r.id == rid then f r else r) }

def eliminarReserva (s : Store) (rid : String) : Store :=
  { s with reservas := s.reservas.filter (fun r => r.id != rid) }

/-- The catch block of `reservarActividad` (lines 113-122): one follow-up
write marking the triggering document `fallida`. -/
def manejarFalloReserva (s : Store) (rid : String) (e : TxError) : Store :=
  actualizarReserva s rid (marcarFallidaReserva (mensajeDeFallo e))

/-- The `reservarActividad` trigger, as a function of the store and the id
of the document whose creation fired it. -/
def reservarActividad (s : Store) (reservaId : String) : Store × Resultado :=
  match s.reservas.find? (fun r => r.id == reservaId) with
  | none => (s, .sinSnapshot)
  | some nuevaReserva =>
    match nuevaReserva.actividadId, nuevaReserva.fechaActividad with
    | some actividadId, some fechaActividad =>
      let cupoTomado := pesoCupo nuevaReserva
      match transaccionReserva s reservaId actividadId fechaActividad cupoTomado with
      | .ok _ => (s, .exito)
      | .error e => (manejarFalloReserva s reservaId e, .fallo e)
    | _, _ => (eliminarReserva s reservaId, .eliminado)

/-- End of an appointment, `fechaTurno.seconds + duracionTerapia * 60`. -/
def finDeTurno (comienzo : Timestamp) (duracionMinutos : Nat) : Timestamp :=
  comienzo + (duracionMinutos : Int) * 60

def mensajeTerapiaNoExiste (tid : String) : String :=
  "La terapia con ID " ++ tid ++ " no existe."

def mensajeSinProfesional (nombre : String) : String :=
  "La terapia " ++ nombre ++ " no tiene un profesional asignado."

def mensajeSolapamiento : String :=
  "El terapeuta ya tiene un turno reservado para esa franja horaria."

/-- Duration `duracionMinutos || 0` read through an optional therapy
document. -/
def duracionDe (te : Option Terapia) : Nat :=
  match te with
  | some t => t.duracionMinutos
  | none => 0

/-- The candidate query of `reservarTurno`: active appointments starting at
or before the end of the new appointment.  A document without `fechaTurno` is
excluded by the range clause, as in Firestore. -/
def candidatosSolapamiento (s : Store) (finTurnoActual : Timestamp) : List Turno :=
  s.turnos.filter (fun t =>
    (t.estado == "confirmado" || t.estado == "pendiente") &&
    (match t.fechaTurno with
     | some ft => decide (ft ≤ finTurnoActual)
     | none => false))

/-- Candidate loop of `reservarTurno` (lines 193-226): skip the
triggering document, load the therapy of the candidate (a candidate without
`terapiaId` makes `doc(undefined)` throw a non-`HttpsError`, modelled as
`TxError.internal`), skip candidates of another practitioner, and report
the first candidate passing the seconds-level interval test. -/
def revisarCandidatos (s : Store) (selfId profesionalId : String)
    (fechaTurno finTurnoActual : Timestamp) : List Turno → Except TxError Bool
  | [] => .ok false
  | t :: resto =>
    if t.id == selfId then
      revisarCandidatos s selfId profesionalId fechaTurno finTurnoActual resto
    else
      match t.terapiaId with
      | none => .error .internal
      | some tid =>
        let terapiaExistente := findTerapia s tid
        let duracionExistente := duracionDe terapiaExistente
        if (terapiaExistente.bind Terapia.profesionalId) != some profesionalId then
          revisarCandidatos s selfId profesionalId fechaTurno finTurnoActual resto
        else
          let fechaExistente := t.fechaTurno.getD 0
          let finExistente := finDeTurno fechaExistente duracionExistente
          if fechaTurno < finExistente && finTurnoActual > fechaExistente then
            .ok true
          else
            revisarCandidatos s selfId profesionalId fechaTurno finTurnoActual resto

/-- The transaction body of `reservarTurno` (lines 152-237): read the
therapy, require a practitioner, compute the end instant, and abort with
`already-exists` when the loop finds an overlap. -/
def transaccionTurno (s : Store) (selfId tid : String) (fechaTurno : Timestamp) :
    Except TxError Unit :=
  match findTerapia s tid with
  | none => .error (.https .notFound (mensajeTerapiaNoExiste tid))
  | some terapia =>
    let duracionTerapia := terapia.duracionMinutos
    match terapia.profesionalId with
    | none => .error (.https .failedPrecondition (mensajeSinProfesional terapia.nombre))
    | some profesionalId =>
      let finTurnoActual := finDeTurno fechaTurno duracionTerapia
      match revisarCandidatos s selfId profesionalId fechaTurno finTurnoActual
          (candidatosSolapamiento s finTurnoActual) with
      | .error e => .error e
      | .ok true => .error (.https .alreadyExists mensajeSolapamiento)
      | .ok false => .ok ()

def marcarFallidaTurno (motivo : String) (t : Turno) : Turno :=
  { t with estado := "fallida", motivoFalla := some motivo }

def actualizarTurno (s : Store) (tid : String) (f : Turno → Turno) : Store :=
  { s with turnos := s.turnos.map (fun t => if t.id == tid then f t else t) }

def eliminarTurno (s : Store) (tid : String) : Store :=
  { s with turnos := s.turnos.filter (fun t => t.id != tid) }

/-- The catch block of `reservarTurno` (lines 238-246). -/
def manejarFalloTurno (s : Store) (tid : String) (e : TxError) : Store :=
  actualizarTurno s tid (marcarFallidaTurno (mensajeDeFallo e))

/-- The `reservarTurno` trigger, as a function of the store and the id of
the document whose creation fired it. -/
def reservarTurno (s : Store) (turnoId : String) : Store × Resultado :=
  match s.turnos.find? (fun t => t.id == turnoId) with
  | none => (s, .sinSnapshot)
  | some nuevoTurno =>
    match nuevoTurno.terapiaId, nuevoTurno.fechaTurno, nuevoTurno.usuarioId with
    | some terapiaId, some fechaTurno, some _ =>
      match transaccionTurno s turnoId terapiaId fechaTurno with
      | .ok _ => (s, .exito)
      | .error e => (manejarFalloTurno s turnoId e, .fallo e)
    | _, _, _ => (eliminarTurno s turnoId, .eliminado)

def reservaDe (nombre : String) (aid : Option String) (fecha : Option Timestamp)
    (cupo : Nat) (estado : String) : Reserva :=
  { id := nombre, actividadId := aid, fechaActividad := fecha,
    cupoTomado := cupo, estado := estado, motivoFalla := none,
    motivoCancelacion := none, fechaCancelacion := none }

def turnoDe (nombre : String) (tid : Option String) (fecha : Option Timestamp)
    (usuario : Option String) (estado : String) : Turno :=
  { id := nombre, terapiaId := tid, fechaTurno := fecha, usuarioId := usuario,
    estado := estado, motivoFalla := none, motivoCancelacion := none,
    fechaCancelacion := none }

def tiendaTurnos : Store :=
  { actividades := [], reservas := [],
    terapias := [{ id := "T", duracionMinutos := 60, profesionalId := some "P",
                   nombre := "Masaje" }],
    turnos := [turnoDe "t0" (some "T") (some 36000) (some "u0") "confirmado",
               turnoDe "t1" (some "T") (some 39540) (some "u1") "pendiente",
               turnoDe "t2" (some "T") (some 39600) (some "u2") "pendiente"] }

-- Scenario B of the spec: 10:59 overlaps a 10:00-11:00 slot, 11:00 does not.

structure Suspension where
  tipo : Option String
  actividadId : Option String
  profesorId : Option String
  fechaInicio : Timestamp
  fechaFin : Timestamp
  motivo : String
  afectaReservasExistentes : Bool
  deriving Repr, DecidableEq

/-- The reservation filter of the cascade (lines 277-284): instant inside
the closed window, `estado == "confirmada"`, and - only when
`tipo === "actividad" && actividadId` - a matching `actividadId`. -/
def reservaSuspendible (susp : Suspension) (r : Reserva) : Bool :=
  (match r.fechaActividad with
   | some f => decide (susp.fechaInicio ≤ f) && decide (f ≤ susp.fechaFin)
   | none => false) &&
  r.estado == "confirmada" &&
  (if susp.tipo == some "actividad" && susp.actividadId.isSome then
     r.actividadId == susp.actividadId
   else
     true)

/-- The batch update applied to each matched reservation (lines 294-298);
`ahora` stands for `FieldValue.serverTimestamp()`. -/
def cancelarReserva (motivo : String) (ahora : Timestamp) (r : Reserva) : Reserva :=
  { r with estado := "cancelado_por_admin", motivoCancelacion := some motivo,
           fechaCancelacion := some ahora }

/-- The therapy filter the appointment branch derives (lines 313-334):
`none` models the early `return null` when a practitioner-scoped
suspension matches no therapy; `some none` models "no extra where clause";
`some (some ids)` models `where terapiaId in ids`. -/
def filtroTerapiasTurnos (terapias : List Terapia) (susp : Suspension) :
    Option (Option (List String)) :=
  if susp.tipo == some "profesor" && susp.profesorId.isSome then
    let terapiaIdsAfectadas :=
      (terapias.filter (fun te => te.profesionalId == susp.profesorId)).map
        (fun te => te.id)
    if terapiaIdsAfectadas.isEmpty then none else some (some terapiaIdsAfectadas)
  else if susp.tipo == some "actividad" && susp.actividadId.isSome then
    some (some [susp.actividadId.getD ""])
  else
    some none

/-- The appointment filter of the cascade (lines 308-334): instant inside
the closed window, `estado == "confirmado"`, plus the optional
`terapiaId in ids` clause (which, as in Firestore, excludes documents
without the field). -/
def turnoSuspendible (susp : Suspension) (filtro : Option (List String))
    (t : Turno) : Bool :=
  (match t.fechaTurno with
   | some f => decide (susp.fechaInicio ≤ f) && decide (f ≤ susp.fechaFin)
   | none => false) &&
  t.estado == "confirmado" &&
  (match filtro with
   | some ids =>
     (match t.terapiaId with
      | some tid => ids.contains tid
      | none => false)
   | none => true)

def cancelarTurno (motivo : String) (ahora : Timestamp) (t : Turno) : Turno :=
  { t with estado := "cancelado_por_admin", motivoCancelacion := some motivo,
           fechaCancelacion := some ahora }

/-- The `procesarSuspension` trigger, as a function of the store, the
after-snapshot (`none` when the document was deleted) and the server
timestamp used for `fechaCancelacion`.  The returned `Nat` counts the
batched update writes the run performs. -/
def procesarSuspension (s : Store) (despues : Option Suspension)
    (ahora : Timestamp) : Store × Nat :=
  match despues with
  | none => (s, 0)
  | some susp =>
    if !susp.afectaReservasExistentes then (s, 0)
    else
      let escriturasReservas :=
        (s.reservas.filter (reservaSuspendible susp)).length
      let s1 : Store :=
        { s with reservas := s.reservas.map (fun r =>
            if reservaSuspendible susp r then cancelarReserva susp.motivo ahora r
            else r) }
      match filtroTerapiasTurnos s1.terapias susp with
      | none => (s1, escriturasReservas)
      | some filtro =>
        let escriturasTurnos :=
          (s1.turnos.filter (turnoSuspendible susp filtro)).length
        ({ s1 with turnos := s1.turnos.map (fun t =>
             if turnoSuspendible susp filtro t then
               cancelarTurno susp.motivo ahora t
             else t) },
         escriturasReservas + escriturasTurnos)

def suspensionDe (tipo : Option String) (aid pid : Option String)
    (desde hasta : Timestamp) (motivo : String) (afecta : Bool) : Suspension :=
  { tipo := tipo, actividadId := aid, profesorId := pid, fechaInicio := desde,
    fechaFin := hasta, motivo := motivo, afectaReservasExistentes := afecta }

def tiendaCupo : Store :=
  { actividades := [{ id := "A", cupo := 2, nombre := "Yoga" }],
    reservas := [reservaDe "r0" (some "A") (some 0) 2 "confirmada",
                 reservaDe "r1" (some "A") (some 0) 1 "pendiente"],
    terapias := [], turnos := [] }

def tiendaSinCupoDefinido : Store :=
  { actividades := [{ id := "B", cupo := 0, nombre := "Pileta" }],
    reservas := [reservaDe "r9" (some "B") (some 50) 1 "pendiente"],
    terapias := [], turnos := [] }

def tiendaIncompleta : Store :=
  { actividades := [], terapias := [],
    reservas := [reservaDe "rx" none (some 10) 1 "pendiente"],
    turnos := [turnoDe "tx" (some "T") none (some "u") "pendiente"] }

def tiendaErrores : Store :=
  { actividades := [], terapias := [],
    reservas := [reservaDe "ra" (some "Z") (some 5) 1 "pendiente"],
    turnos := [turnoDe "ta" (some "W") (some 5) (some "u") "pendiente"] }

/-- The test the candidate loop effectively applies to one candidate
(self-exclusion, practitioner match resolved through the candidate
therapy, and the seconds-level half-open interval test). -/
def pasaFiltroLoop (s : Store) (selfId pid : String) (a fin : Timestamp)
    (t : Turno) : Bool :=
  t.id != selfId &&
  (match t.terapiaId with
   | some tid2 =>
     ((findTerapia s tid2).bind Terapia.profesionalId == some pid) &&
     (decide (a < finDeTurno (t.fechaTurno.getD 0) (duracionDe (findTerapia s tid2))) &&
      decide (fin > t.fechaTurno.getD 0))
   | none => false)

/-- The overlap condition exactly as the claim words it, for one stored
appointment `t` against a new appointment of practitioner `pid` running
over `[fecha, finNuevo)`: another active appointment of the same
practitioner (resolved through its therapy) whose interval intersects. -/
def conflictoSegunClaim (s : Store) (selfId pid : String)
    (fecha finNuevo : Timestamp) (t : Turno) : Prop :=
  t.id ≠ selfId ∧
  (t.estado = "confirmado" ∨ t.estado = "pendiente") ∧
  ∃ ft tid2, t.fechaTurno = some ft ∧ t.terapiaId = some tid2 ∧
    (findTerapia s tid2).bind Terapia.profesionalId = some pid ∧
    fecha < finDeTurno ft (duracionDe (findTerapia s tid2)) ∧
    finNuevo > ft

def tiendaCascada : Store :=
  { actividades := [], terapias := [], turnos := [],
    reservas := [reservaDe "r0" (some "A1") (some 100) 1 "confirmada",
                 reservaDe "r1" (some "A2") (some 100) 1 "confirmada",
                 reservaDe "r2" (some "A1") (some 999) 1 "confirmada",
                 reservaDe "r3" (some "A1") (some 100) 1 "pendiente"] }

def suspensionC : Suspension :=
  suspensionDe (some "actividad") (some "A1") none 0 200 "obras" true

def tiendaExitosa : Store :=
  { actividades := [{ id := "A", cupo := 5, nombre := "Yoga" }],
    reservas := [reservaDe "r1" (some "A") (some 0) 1 "pendiente"],
    terapias := [], turnos := [] }

example :
    (reservarActividad
      { actividades := [{ id := "A", cupo := 2, nombre := "Yoga" }],
        reservas := [reservaDe "r0" (some "A") (some 0) 2 "confirmada",
                     reservaDe "r1" (some "A") (some 0) 1 "pendiente"],
        terapias := [], turnos := [] } "r1").2 =
    .fallo (.https .resourceExhausted (mensajeSinCupo "Yoga" 0 0)) := by
  decide

example :
    (reservarTurno tiendaTurnos "t1").2 =
      .fallo (.https .alreadyExists mensajeSolapamiento) := by
  decide

example :
    (reservarTurno (reservarTurno tiendaTurnos "t1").1 "t2").2 = .exito := by
  decide

section ListasAuxiliares

variable {α : Type}

lemma filter_eq_nil_de_falso (p : α → Bool) :
    ∀ l : List α, (∀ x ∈ l, p x = false) → l.filter p = [] := by
  intro l
  induction l with
  | nil => intro _; rfl
  | cons a l ih =>
    intro h
    have ha := h a (List.mem_cons_self a l)
    have hl := ih (fun x hx => h x (List.mem_cons_of_mem a hx))
    simp [List.filter, ha, hl]

lemma map_eq_self_de_fijo (f : α → α) :
    ∀ l : List α, (∀ x ∈ l, f x = x) → l.map f = l := by
  intro l
  induction l with
  | nil => intro _; rfl
  | cons a l ih =>
    intro h
    simp [List.map, h a (List.mem_cons_self a l),
      ih (fun x hx => h x (List.mem_cons_of_mem a hx))]

lemma any_filter_conj (p q : α → Bool) :
    ∀ l : List α, (l.filter q).any p = l.any (fun x => q x && p x) := by
  intro l
  induction l with
  | nil => rfl
  | cons a l ih =>
    by_cases hq : q a = true
    · simp [List.filter, hq, List.any, ih]
    · have hq' : q a = false := by
        cases h : q a
        · rfl
        · exact absurd h hq
      simp [List.filter, hq', List.any, ih]

end ListasAuxiliares

-- Scenario C of the spec: an activity-scoped suspension cancels the covered

-- confirmed reservation of that activity and touches no other reservation.
example :
    ((procesarSuspension
      { actividades := [], terapias := [], turnos := [],
        reservas := [reservaDe "r0" (some "A1") (some 100) 1 "confirmada",
                     reservaDe "r1" (some "A2") (some 100) 1 "confirmada",
                     reservaDe "r2" (some "A1") (some 999) 1 "confirmada",
                     reservaDe "r3" (some "A1") (some 100) 1 "pendiente"] }
      (some (suspensionDe (some "actividad") (some "A1") none 0 200 "obras" true))
      7).1).reservas.map Reserva.estado =
    ["cancelado_por_admin", "confirmada", "confirmada", "pendiente"] := by
  decide

/-- Claim C1: within the capacity admission transaction, once the activity
document exists, the request fails with `ResourceExhausted` exactly when
`capacity - occupied` is smaller than the (defaulted) requested seats,
where `occupied` sums the defaulted seats of all other reservations of the
same activity and instant whose status is confirmed or pending; otherwise
the transaction succeeds and the controller leaves the store unchanged. -/
theorem claim_c1 (s : Store) (rid aid : String) (fecha : Timestamp)
    (r : Reserva) (act : Actividad)
    (hfind : s.reservas.find? (fun x => x.id == rid) = some r)
    (haid : r.actividadId = some aid)
    (hfecha : r.fechaActividad = some fecha)
    (hact : findActividad s aid = some act) :
    if (act.cupo : Int) - (cupoOcupado s aid fecha rid : Int) < (pesoCupo r : Int) then
      (reservarActividad s rid).2 =
        .fallo (.https .resourceExhausted
          (mensajeSinCupo act.nombre fecha
            ((act.cupo : Int) - (cupoOcupado s aid fecha rid : Int))))
    else
      reservarActividad s rid = (s, .exito) := by
  simp only [reservarActividad, hfind, haid, hfecha, transaccionReserva, hact]
  split
  · simp
  · simp

theorem claim_c1_witness :
    tiendaCupo.reservas.find? (fun x => x.id == "r1") =
      some (reservaDe "r1" (some "A") (some 0) 1 "pendiente") ∧
    findActividad tiendaCupo "A" = some { id := "A", cupo := 2, nombre := "Yoga" } ∧
    (if ((({ id := "A", cupo := 2, nombre := "Yoga" } : Actividad).cupo : Int) -
          (cupoOcupado tiendaCupo "A" 0 "r1" : Int) <
          (pesoCupo (reservaDe "r1" (some "A") (some 0) 1 "pendiente") : Int)) then
      (reservarActividad tiendaCupo "r1").2 =
        .fallo (.https .resourceExhausted
          (mensajeSinCupo ({ id := "A", cupo := 2, nombre := "Yoga" } : Actividad).nombre 0
            ((({ id := "A", cupo := 2, nombre := "Yoga" } : Actividad).cupo : Int) -
              (cupoOcupado tiendaCupo "A" 0 "r1" : Int))))
    else
      reservarActividad tiendaCupo "r1" = (tiendaCupo, .exito)) :=
  ⟨by decide, by decide,
    claim_c1 tiendaCupo "r1" "A" 0
      (reservaDe "r1" (some "A") (some 0) 1 "pendiente")
      { id := "A", cupo := 2, nombre := "Yoga" }
      (by decide) (by decide) (by decide) (by decide)⟩

/-- Claim C10: when the referenced activity exists but its `cupo` field is
absent or zero, the controller treats the capacity as 0, so the admission
always fails with `ResourceExhausted` and the triggering reservation is
marked `fallida` by a follow-up write. -/
theorem claim_c10 (s : Store) (rid aid : String) (fecha : Timestamp)
    (r : Reserva) (act : Actividad)
    (hfind : s.reservas.find? (fun x => x.id == rid) = some r)
    (haid : r.actividadId = some aid)
    (hfecha : r.fechaActividad = some fecha)
    (hact : findActividad s aid = some act)
    (hcupo : act.cupo = 0) :
    ∃ m, (reservarActividad s rid).2 = .fallo (.https .resourceExhausted m) ∧
      (reservarActividad s rid).1.reservas =
        s.reservas.map (fun x =>
          if x.id == rid then marcarFallidaReserva m x else x) := by
  have hlt : (act.cupo : Int) - (cupoOcupado s aid fecha rid : Int) <
      (pesoCupo r : Int) := by
    have hp : 1 ≤ pesoCupo r := by
      unfold pesoCupo
      split
      · exact le_refl 1
      · omega
    rw [hcupo]
    omega
  refine ⟨mensajeSinCupo act.nombre fecha
    ((act.cupo : Int) - (cupoOcupado s aid fecha rid : Int)), ?_⟩
  simp only [reservarActividad, hfind, haid, hfecha, transaccionReserva, hact,
    if_pos hlt]
  exact ⟨trivial, rfl⟩

theorem claim_c10_witness :
    tiendaSinCupoDefinido.reservas.find? (fun x => x.id == "r9") =
      some (reservaDe "r9" (some "B") (some 50) 1 "pendiente") ∧
    (∃ m, (reservarActividad tiendaSinCupoDefinido "r9").2 =
        .fallo (.https .resourceExhausted m) ∧
      (reservarActividad tiendaSinCupoDefinido "r9").1.reservas =
        tiendaSinCupoDefinido.reservas.map (fun x =>
          if x.id == "r9" then marcarFallidaReserva m x else x)) :=
  ⟨by decide,
    claim_c10 tiendaSinCupoDefinido "r9" "B" 50
      (reservaDe "r9" (some "B") (some 50) 1 "pendiente")
      { id := "B", cupo := 0, nombre := "Pileta" }
      (by decide) (by decide) (by decide) (by decide) (by decide)⟩

/-- Claim C9: a triggering booking document that lacks a required field
(`actividadId` or `fechaActividad` for a group reservation; `terapiaId`,
`fechaTurno` or `usuarioId` for an appointment) is deleted from the store,
with no admission transaction run and no `fallida` write performed. -/
theorem claim_c9 (s : Store) (rid tid : String) (r : Reserva) (t : Turno) :
    (s.reservas.find? (fun x => x.id == rid) = some r →
      (r.actividadId = none ∨ r.fechaActividad = none) →
      reservarActividad s rid = (eliminarReserva s rid, .eliminado)) ∧
    (s.turnos.find? (fun x => x.id == tid) = some t →
      (t.terapiaId = none ∨ t.fechaTurno = none ∨ t.usuarioId = none) →
      reservarTurno s tid = (eliminarTurno s tid, .eliminado)) := by
  constructor
  · intro hfind hcampo
    simp only [reservarActividad, hfind]
    rcases hcampo with h | h
    · rw [h]
    · rw [h]
      rcases ha : r.actividadId with _ | a <;> rfl
  · intro hfind hcampo
    simp only [reservarTurno, hfind]
    rcases hcampo with h | h | h
    · rw [h]
    · rw [h]
      rcases h1 : t.terapiaId with _ | x <;>
        rcases h2 : t.usuarioId with _ | u <;> rfl
    · rw [h]
      rcases h1 : t.terapiaId with _ | x <;>
        rcases h2 : t.fechaTurno with _ | f <;> rfl

theorem claim_c9_witness :
    tiendaIncompleta.reservas.find? (fun x => x.id == "rx") =
      some (reservaDe "rx" none (some 10) 1 "pendiente") ∧
    tiendaIncompleta.turnos.find? (fun x => x.id == "tx") =
      some (turnoDe "tx" (some "T") none (some "u") "pendiente") ∧
    reservarActividad tiendaIncompleta "rx" =
      (eliminarReserva tiendaIncompleta "rx", .eliminado) ∧
    reservarTurno tiendaIncompleta "tx" =
      (eliminarTurno tiendaIncompleta "tx", .eliminado) :=
  ⟨by decide, by decide,
    (claim_c9 tiendaIncompleta "rx" "tx"
      (reservaDe "rx" none (some 10) 1 "pendiente")
      (turnoDe "tx" (some "T") none (some "u") "pendiente")).1
      (by decide) (Or.inl (by decide)),
    (claim_c9 tiendaIncompleta "rx" "tx"
      (reservaDe "rx" none (some 10) 1 "pendiente")
      (turnoDe "tx" (some "T") none (some "u") "pendiente")).2
      (by decide) (Or.inr (Or.inl (by decide)))⟩

/-- Claim C6: whenever the admission transaction aborts, the controller
performs exactly one follow-up write: the triggering record (and only it)
gets `estado = "fallida"` with `motivoFalla` derived from the error - the
`HttpsError` domain errors keep their specific message, any other error
gets the generic internal message - and no other collection is touched. -/
theorem claim_c6 (s : Store) (rid tid : String) :
    (∀ (r : Reserva) (aid : String) (fecha : Timestamp) (e : TxError),
      s.reservas.find? (fun x => x.id == rid) = some r →
      r.actividadId = some aid →
      r.fechaActividad = some fecha →
      transaccionReserva s rid aid fecha (pesoCupo r) = .error e →
      (reservarActividad s rid).2 = .fallo e ∧
      (reservarActividad s rid).1.reservas =
        s.reservas.map (fun x =>
          if x.id == rid then
            { x with estado := "fallida", motivoFalla := some (mensajeDeFallo e) }
          else x) ∧
      (reservarActividad s rid).1.turnos = s.turnos ∧
      (reservarActividad s rid).1.actividades = s.actividades ∧
      (reservarActividad s rid).1.terapias = s.terapias) ∧
    (∀ (t : Turno) (tid2 : String) (fecha : Timestamp) (e : TxError),
      s.turnos.find? (fun x => x.id == tid) = some t →
      t.terapiaId = some tid2 →
      t.fechaTurno = some fecha →
      t.usuarioId.isSome = true →
      transaccionTurno s tid tid2 fecha = .error e →
      (reservarTurno s tid).2 = .fallo e ∧
      (reservarTurno s tid).1.turnos =
        s.turnos.map (fun x =>
          if x.id == tid then
            { x with estado := "fallida", motivoFalla := some (mensajeDeFallo e) }
          else x) ∧
      (reservarTurno s tid).1.reservas = s.reservas ∧
      (reservarTurno s tid).1.actividades = s.actividades ∧
      (reservarTurno s tid).1.terapias = s.terapias) ∧
    (∀ c m, mensajeDeFallo (.https c m) = m) ∧
    mensajeDeFallo .internal = "Error interno del servidor." := by
  refine ⟨?_, ?_, fun c m => rfl, rfl⟩
  · intro r aid fecha e hfind haid hfecha htx
    simp only [reservarActividad, hfind, haid, hfecha, htx]
    exact ⟨trivial, rfl, rfl, rfl, rfl⟩
  · intro t tid2 fecha e hfind htid hfecha husr htx
    rcases hu : t.usuarioId with _ | u
    · rw [hu] at husr
      simp at husr
    · simp only [reservarTurno, hfind, htid, hfecha, hu, htx]
      exact ⟨trivial, rfl, rfl, rfl, rfl⟩

theorem claim_c6_witness :
    transaccionReserva tiendaErrores "ra" "Z" 5
      (pesoCupo (reservaDe "ra" (some "Z") (some 5) 1 "pendiente")) =
      .error (.https .notFound (mensajeActividadNoExiste "Z")) ∧
    ((reservarActividad tiendaErrores "ra").2 =
        .fallo (.https .notFound (mensajeActividadNoExiste "Z")) ∧
      (reservarActividad tiendaErrores "ra").1.reservas =
        tiendaErrores.reservas.map (fun x =>
          if x.id == "ra" then
            { x with estado := "fallida",
                     motivoFalla :=
                       some (mensajeDeFallo
                         (.https .notFound (mensajeActividadNoExiste "Z"))) }
          else x) ∧
      (reservarActividad tiendaErrores "ra").1.turnos = tiendaErrores.turnos ∧
      (reservarActividad tiendaErrores "ra").1.actividades =
        tiendaErrores.actividades ∧
      (reservarActividad tiendaErrores "ra").1.terapias =
        tiendaErrores.terapias) :=
  ⟨rfl,
    (claim_c6 tiendaErrores "ra" "ta").1
      (reservaDe "ra" (some "Z") (some 5) 1 "pendiente") "Z" 5
      (.https .notFound (mensajeActividadNoExiste "Z"))
      (by decide) (by decide) (by decide) rfl⟩

lemma revisar_error_interno (s : Store) (selfId pid : String) (a fin : Timestamp) :
    ∀ (l : List Turno) (e : TxError),
      revisarCandidatos s selfId pid a fin l = .error e → e = .internal := by
  intro l
  induction l with
  | nil =>
    intro e h
    simp [revisarCandidatos] at h
  | cons t resto ih =>
    intro e h
    simp only [revisarCandidatos] at h
    split at h
    · exact ih e h
    · split at h
      · simp only [Except.error.injEq] at h
        exact h.symm
      · split at h
        · exact ih e h
        · split at h
          · simp at h
          · exact ih e h

lemma revisar_eq_any (s : Store) (selfId pid : String) (a fin : Timestamp) :
    ∀ l : List Turno, (∀ t ∈ l, t.terapiaId.isSome = true) →
      revisarCandidatos s selfId pid a fin l =
        .ok (l.any (pasaFiltroLoop s selfId pid a fin)) := by
  intro l
  induction l with
  | nil => intro _; rfl
  | cons t resto ih =>
    intro h
    have hresto := ih (fun x hx => h x (List.mem_cons_of_mem t hx))
    rcases Option.isSome_iff_exists.mp (h t (List.mem_cons_self t resto)) with ⟨tid2, htid⟩
    simp only [revisarCandidatos, List.any_cons, htid]
    by_cases hself : (t.id == selfId) = true
    · have hne : (t.id != selfId) = false := by simp [bne, hself]
      rw [if_pos hself, hresto]
      simp [pasaFiltroLoop, hne]
    · have hself' : (t.id == selfId) = false := by
        cases hbe : (t.id == selfId)
        · rfl
        · exact absurd hbe hself
      have hne : (t.id != selfId) = true := by simp [bne, hself']
      rw [if_neg hself]
      by_cases hmatch :
          ((findTerapia s tid2).bind Terapia.profesionalId != some pid) = true
      · have hmatch' :
            ((findTerapia s tid2).bind Terapia.profesionalId == some pid) = false := by
          simpa [bne] using hmatch
        rw [if_pos hmatch, hresto]
        simp [pasaFiltroLoop, hne, htid, hmatch']
      · have hmatch' :
            ((findTerapia s tid2).bind Terapia.profesionalId == some pid) = true := by
          simpa [bne] using hmatch
        rw [if_neg hmatch]
        by_cases hov :
            (decide (a < finDeTurno (t.fechaTurno.getD 0) (duracionDe (findTerapia s tid2))) &&
             decide (fin > t.fechaTurno.getD 0)) = true
        · rw [if_pos hov]
          simp [pasaFiltroLoop, hne, htid, hmatch', hov]
        · have hov' := Bool.not_eq_true _ |>.mp hov
          rw [if_neg hov, hresto]
          simp [pasaFiltroLoop, hne, htid, hmatch', hov']

/-- Claim C7: the appointment transaction fails `NotFound` exactly when the
therapy document is missing, and `FailedPrecondition` exactly when the
therapy exists but carries no practitioner; in both cases the outcome does
not depend on the stored appointments (the abort happens before any
candidate is examined). -/
theorem claim_c7 (s : Store) (selfId tid : String) (fecha : Timestamp) :
    ((∃ m, transaccionTurno s selfId tid fecha = .error (.https .notFound m)) ↔
      findTerapia s tid = none) ∧
    ((∃ m, transaccionTurno s selfId tid fecha =
        .error (.https .failedPrecondition m)) ↔
      ∃ te, findTerapia s tid = some te ∧ te.profesionalId = none) ∧
    ((findTerapia s tid = none ∨
        ∃ te, findTerapia s tid = some te ∧ te.profesionalId = none) →
      ∀ l : List Turno,
        transaccionTurno { s with turnos := l } selfId tid fecha =
          transaccionTurno s selfId tid fecha) := by
  rcases hte : findTerapia s tid with _ | te
  · have h0 : transaccionTurno s selfId tid fecha =
        .error (.https .notFound (mensajeTerapiaNoExiste tid)) := by
      simp [transaccionTurno, hte]
    refine ⟨⟨fun _ => rfl, fun _ => ⟨mensajeTerapiaNoExiste tid, h0⟩⟩, ?_, ?_⟩
    · constructor
      · rintro ⟨m, hm⟩
        rw [h0] at hm
        simp at hm
      · rintro ⟨te2, hte2, _⟩
        cases hte2
    · intro _ l
      have h1 : transaccionTurno { s with turnos := l } selfId tid fecha =
          .error (.https .notFound (mensajeTerapiaNoExiste tid)) := by
        simp [transaccionTurno, show findTerapia { s with turnos := l } tid = none from hte]
      rw [h0, h1]
  · rcases hp : te.profesionalId with _ | pid
    · have h0 : transaccionTurno s selfId tid fecha =
          .error (.https .failedPrecondition (mensajeSinProfesional te.nombre)) := by
        simp [transaccionTurno, hte, hp]
      refine ⟨?_, ⟨fun _ => ⟨te, rfl, hp⟩, fun _ => ⟨mensajeSinProfesional te.nombre, h0⟩⟩, ?_⟩
      · constructor
        · rintro ⟨m, hm⟩
          rw [h0] at hm
          simp at hm
        · intro hnone
          cases hnone
      · intro _ l
        have h1 : transaccionTurno { s with turnos := l } selfId tid fecha =
            .error (.https .failedPrecondition (mensajeSinProfesional te.nombre)) := by
          simp [transaccionTurno,
            show findTerapia { s with turnos := l } tid = some te from hte, hp]
        rw [h0, h1]
    · have hred : transaccionTurno s selfId tid fecha =
          match revisarCandidatos s selfId pid fecha
              (finDeTurno fecha te.duracionMinutos)
              (candidatosSolapamiento s (finDeTurno fecha te.duracionMinutos)) with
          | .error e => .error e
          | .ok true => .error (.https .alreadyExists mensajeSolapamiento)
          | .ok false => .ok () := by
        simp [transaccionTurno, hte, hp]
      refine ⟨?_, ?_, ?_⟩
      · constructor
        · rintro ⟨m, hm⟩
          rw [hred] at hm
          rcases hr : revisarCandidatos s selfId pid fecha
              (finDeTurno fecha te.duracionMinutos)
              (candidatosSolapamiento s (finDeTurno fecha te.duracionMinutos)) with e | b
          · rw [revisar_error_interno s selfId pid fecha
              (finDeTurno fecha te.duracionMinutos) _ e hr] at hr
            simp only [hr] at hm
            simp at hm
          · rcases b <;> simp only [hr] at hm <;> simp at hm
        · intro hnone
          cases hnone
      · constructor
        · rintro ⟨m, hm⟩
          rw [hred] at hm
          rcases hr : revisarCandidatos s selfId pid fecha
              (finDeTurno fecha te.duracionMinutos)
              (candidatosSolapamiento s (finDeTurno fecha te.duracionMinutos)) with e | b
          · rw [revisar_error_interno s selfId pid fecha
              (finDeTurno fecha te.duracionMinutos) _ e hr] at hr
            simp only [hr] at hm
            simp at hm
          · rcases b <;> simp only [hr] at hm <;> simp at hm
        · rintro ⟨te2, hte2, hp2⟩
          cases hte2
          rw [hp] at hp2
          cases hp2
      · rintro (hnone | ⟨te2, hte2, hp2⟩)
        · cases hnone
        · cases hte2
          rw [hp] at hp2
          cases hp2

theorem claim_c7_witness :
    (∃ m, transaccionTurno tiendaErrores "x" "W" 5 =
      .error (.https .notFound m)) :=
  (claim_c7 tiendaErrores "x" "W" 5).1.mpr rfl

lemma conflicto_iff_filtros (s : Store) (selfId pid : String)
    (fecha finNuevo : Timestamp) (t : Turno) :
    (((t.estado == "confirmado" || t.estado == "pendiente") &&
        (match t.fechaTurno with
         | some ft => decide (ft ≤ finNuevo)
         | none => false)) = true ∧
      pasaFiltroLoop s selfId pid fecha finNuevo t = true) ↔
    conflictoSegunClaim s selfId pid fecha finNuevo t := by
  constructor
  · rintro ⟨hq, hp⟩
    rcases hft : t.fechaTurno with _ | ft
    · rw [hft] at hq
      simp at hq
    · rw [hft] at hq
      simp only [Bool.and_eq_true, Bool.or_eq_true, beq_iff_eq,
        decide_eq_true_eq] at hq
      rcases hq with ⟨hest, _⟩
      rcases htid : t.terapiaId with _ | tid2
      · unfold pasaFiltroLoop at hp
        simp only [htid, Bool.and_eq_true] at hp
        rcases hp with ⟨_, hfalso⟩
        cases hfalso
      · unfold pasaFiltroLoop at hp
        simp only [htid, hft, Option.getD_some, Bool.and_eq_true, bne_iff_ne,
          beq_iff_eq, decide_eq_true_eq] at hp
        rcases hp with ⟨hid, hpid2, hov1, hov2⟩
        exact ⟨hid, hest, ft, tid2, hft, htid, hpid2, hov1, hov2⟩
  · rintro ⟨hid, hest, ft, tid2, hft, htid, hpid2, hov1, hov2⟩
    constructor
    · rw [hft]
      simp only [Bool.and_eq_true, Bool.or_eq_true, beq_iff_eq,
        decide_eq_true_eq]
      exact ⟨hest, le_of_lt hov2⟩
    · unfold pasaFiltroLoop
      simp only [htid, hft, Option.getD_some, Bool.and_eq_true, bne_iff_ne,
        beq_iff_eq, decide_eq_true_eq]
      exact ⟨hid, hpid2, hov1, hov2⟩

/-- Claim C2: with the therapy present and staffed, the appointment
transaction fails with `AlreadyExists` exactly when some other active
appointment of the same practitioner overlaps the new half-open interval
(`a.startAt < c.endAt` and `a.endAt > c.startAt`, with each end derived as
start plus therapy duration); with no such overlap it succeeds - in
particular an appointment starting exactly at the end of another one is
admitted. -/
theorem claim_c2 (s : Store) (selfId tid : String) (fecha : Timestamp)
    (te : Terapia) (pid : String)
    (hte : findTerapia s tid = some te)
    (hpid : te.profesionalId = some pid)
    (hwf : ∀ t ∈ s.turnos, t.terapiaId.isSome = true) :
    ((∃ m, transaccionTurno s selfId tid fecha = .error (.https .alreadyExists m)) ↔
      ∃ t ∈ s.turnos,
        conflictoSegunClaim s selfId pid fecha
          (finDeTurno fecha te.duracionMinutos) t) ∧
    ((¬ ∃ t ∈ s.turnos,
        conflictoSegunClaim s selfId pid fecha
          (finDeTurno fecha te.duracionMinutos) t) →
      transaccionTurno s selfId tid fecha = .ok ()) := by
  have hcand : ∀ t ∈ candidatosSolapamiento s (finDeTurno fecha te.duracionMinutos),
      t.terapiaId.isSome = true := by
    intro t ht
    exact hwf t (List.mem_filter.mp ht).1
  have hrev := revisar_eq_any s selfId pid fecha
    (finDeTurno fecha te.duracionMinutos)
    (candidatosSolapamiento s (finDeTurno fecha te.duracionMinutos)) hcand
  have hred : transaccionTurno s selfId tid fecha =
      (if (candidatosSolapamiento s (finDeTurno fecha te.duracionMinutos)).any
          (pasaFiltroLoop s selfId pid fecha (finDeTurno fecha te.duracionMinutos)) then
        .error (.https .alreadyExists mensajeSolapamiento)
      else .ok ()) := by
    cases hb : (candidatosSolapamiento s (finDeTurno fecha te.duracionMinutos)).any
        (pasaFiltroLoop s selfId pid fecha (finDeTurno fecha te.duracionMinutos))
    · rw [hb] at hrev
      simp [transaccionTurno, hte, hpid, hrev]
    · rw [hb] at hrev
      simp [transaccionTurno, hte, hpid, hrev]
  have hexist : (candidatosSolapamiento s (finDeTurno fecha te.duracionMinutos)).any
        (pasaFiltroLoop s selfId pid fecha (finDeTurno fecha te.duracionMinutos)) = true ↔
      ∃ t ∈ s.turnos,
        conflictoSegunClaim s selfId pid fecha
          (finDeTurno fecha te.duracionMinutos) t := by
    rw [List.any_eq_true]
    constructor
    · rintro ⟨t, htmem, htp⟩
      rcases List.mem_filter.mp htmem with ⟨htl, htq⟩
      exact ⟨t, htl, (conflicto_iff_filtros s selfId pid fecha
        (finDeTurno fecha te.duracionMinutos) t).mp ⟨htq, htp⟩⟩
    · rintro ⟨t, htl, htc⟩
      rcases (conflicto_iff_filtros s selfId pid fecha
        (finDeTurno fecha te.duracionMinutos) t).mpr htc with ⟨htq, htp⟩
      exact ⟨t, List.mem_filter.mpr ⟨htl, htq⟩, htp⟩
  constructor
  · rw [hred]
    constructor
    · rintro ⟨m, hm⟩
      rcases hb : (candidatosSolapamiento s (finDeTurno fecha te.duracionMinutos)).any
          (pasaFiltroLoop s selfId pid fecha (finDeTurno fecha te.duracionMinutos))
      · rw [hb] at hm
        simp at hm
      · exact hexist.mp hb
    · intro hc
      rw [if_pos (hexist.mpr hc)]
      exact ⟨mensajeSolapamiento, rfl⟩
  · intro hc
    rw [hred, if_neg ?_]
    intro hb
    exact hc (hexist.mp hb)

theorem claim_c2_witness :
    (∀ t ∈ tiendaTurnos.turnos, t.terapiaId.isSome = true) ∧
    (∃ m, transaccionTurno tiendaTurnos "t1" "T" 39540 =
      .error (.https .alreadyExists m)) :=
  ⟨by decide,
    (claim_c2 tiendaTurnos "t1" "T" 39540
      { id := "T", duracionMinutos := 60, profesionalId := some "P",
        nombre := "Masaje" } "P" rfl rfl (by decide)).1.mpr
      ⟨turnoDe "t0" (some "T") (some 36000) (some "u0") "confirmado",
        by decide, by decide, Or.inl rfl, 36000, "T", rfl, rfl, rfl,
        by decide, by decide⟩⟩

lemma estado_cancelado_no_confirmada :
    (("cancelado_por_admin" : String) == "confirmada") = false := by decide

lemma estado_cancelado_no_confirmado :
    (("cancelado_por_admin" : String) == "confirmado") = false := by decide

lemma reserva_cancelada_no_suspendible (susp : Suspension) (m : String)
    (a : Timestamp) (r : Reserva) :
    reservaSuspendible susp (cancelarReserva m a r) = false := by
  simp [reservaSuspendible, cancelarReserva, estado_cancelado_no_confirmada]

lemma turno_cancelado_no_suspendible (susp : Suspension)
    (filtro : Option (List String)) (m : String) (a : Timestamp) (t : Turno) :
    turnoSuspendible susp filtro (cancelarTurno m a t) = false := by
  simp [turnoSuspendible, cancelarTurno, estado_cancelado_no_confirmado]

lemma paso_reserva_falso (susp : Suspension) (m : String) (a : Timestamp)
    (r : Reserva) :
    reservaSuspendible susp
      (if reservaSuspendible susp r then cancelarReserva m a r else r) = false := by
  cases hb : reservaSuspendible susp r
  · simp [hb]
  · simp [hb, reserva_cancelada_no_suspendible]

lemma paso_turno_falso (susp : Suspension) (filtro : Option (List String))
    (m : String) (a : Timestamp) (t : Turno) :
    turnoSuspendible susp filtro
      (if turnoSuspendible susp filtro t then cancelarTurno m a t else t) = false := by
  cases hb : turnoSuspendible susp filtro t
  · simp [hb]
  · simp [hb, turno_cancelado_no_suspendible]

lemma procesar_sin_candidatos (s : Store) (susp : Suspension) (t : Timestamp)
    (hr : ∀ r ∈ s.reservas, reservaSuspendible susp r = false)
    (ht : ∀ filtro, filtroTerapiasTurnos s.terapias susp = some filtro →
      ∀ x ∈ s.turnos, turnoSuspendible susp filtro x = false) :
    procesarSuspension s (some susp) t = (s, 0) := by
  cases ha : susp.afectaReservasExistentes
  · simp [procesarSuspension, ha]
  · have hfil : s.reservas.filter (reservaSuspendible susp) = [] :=
      filter_eq_nil_de_falso _ _ hr
    have hmap : s.reservas.map (fun r =>
        if reservaSuspendible susp r then cancelarReserva susp.motivo t r else r) =
        s.reservas :=
      map_eq_self_de_fijo _ _ (fun x hx => by rw [hr x hx]; rfl)
    rcases hf : filtroTerapiasTurnos s.terapias susp with _ | filtro
    · simp [procesarSuspension, ha, hf, hfil, hmap]
    · have hfil2 : s.turnos.filter (turnoSuspendible susp filtro) = [] :=
        filter_eq_nil_de_falso _ _ (ht filtro hf)
      have hmap2 : s.turnos.map (fun x =>
          if turnoSuspendible susp filtro x then cancelarTurno susp.motivo t x else x) =
          s.turnos :=
        map_eq_self_de_fijo _ _ (fun x hx => by rw [ht filtro hf x hx]; rfl)
      simp [procesarSuspension, ha, hf, hfil, hmap, hfil2, hmap2]

lemma procesar_forma (s : Store) (susp : Suspension) (t : Timestamp)
    (ha : susp.afectaReservasExistentes = true) :
    ((procesarSuspension s (some susp) t).1.terapias = s.terapias ∧
      (procesarSuspension s (some susp) t).1.actividades = s.actividades) ∧
    (procesarSuspension s (some susp) t).1.reservas =
      s.reservas.map (fun r =>
        if reservaSuspendible susp r then cancelarReserva susp.motivo t r else r) ∧
    ((filtroTerapiasTurnos s.terapias susp = none ∧
        (procesarSuspension s (some susp) t).1.turnos = s.turnos) ∨
      ∃ filtro, filtroTerapiasTurnos s.terapias susp = some filtro ∧
        (procesarSuspension s (some susp) t).1.turnos =
          s.turnos.map (fun x =>
            if turnoSuspendible susp filtro x then cancelarTurno susp.motivo t x
            else x)) := by
  rcases hf : filtroTerapiasTurnos s.terapias susp with _ | filtro
  · refine ⟨⟨?_, ?_⟩, ?_, Or.inl ⟨rfl, ?_⟩⟩ <;>
      simp [procesarSuspension, ha, hf]
  · refine ⟨⟨?_, ?_⟩, ?_, Or.inr ⟨filtro, rfl, ?_⟩⟩ <;>
      simp [procesarSuspension, ha, hf]

/-- Claim C3: the cascade processor is idempotent: re-running it on the
suspension event over the store the first run produced changes nothing and
performs zero writes, whatever the store and whatever the server
timestamps of the two runs are. -/
theorem claim_c3 (s : Store) (despues : Option Suspension) (t1 t2 : Timestamp) :
    procesarSuspension (procesarSuspension s despues t1).1 despues t2 =
      ((procesarSuspension s despues t1).1, 0) := by
  rcases despues with _ | susp
  · rfl
  · cases ha : susp.afectaReservasExistentes
    · have h1 : procesarSuspension s (some susp) t1 = (s, 0) := by
        simp [procesarSuspension, ha]
      rw [h1]
      simp [procesarSuspension, ha]
    · obtain ⟨⟨hter, _⟩, hres, hturn⟩ := procesar_forma s susp t1 ha
      apply procesar_sin_candidatos
      · intro r hr
        rw [hres] at hr
        rcases List.mem_map.mp hr with ⟨y, _, rfl⟩
        exact paso_reserva_falso susp susp.motivo t1 y
      · intro filtro hfil x hx
        rw [hter] at hfil
        rcases hturn with ⟨hnone, _⟩ | ⟨filtro2, hf2, hmapt⟩
        · rw [hnone] at hfil
          cases hfil
        · rw [hf2] at hfil
          have heq := Option.some.inj hfil
          subst heq
          rw [hmapt] at hx
          rcases List.mem_map.mp hx with ⟨y, _, rfl⟩
          exact paso_turno_falso susp filtro2 susp.motivo t1 y

/-- Claim C8: a suspension event whose document was deleted, or whose
`cascades` flag (`afectaReservasExistentes`) is false, changes no
reservation or appointment record and performs no write. -/
theorem claim_c8 (s : Store) (despues : Option Suspension) (t : Timestamp)
    (h : despues = none ∨
      ∃ susp, despues = some susp ∧ susp.afectaReservasExistentes = false) :
    procesarSuspension s despues t = (s, 0) := by
  rcases h with h | ⟨susp, h, hafecta⟩
  · rw [h]
    rfl
  · rw [h]
    simp [procesarSuspension, hafecta]

theorem claim_c8_witness :
    ((some (suspensionDe (some "actividad") (some "A1") none 0 200 "obras" false) :
        Option Suspension) = none ∨
      ∃ susp, (some (suspensionDe (some "actividad") (some "A1") none 0 200 "obras" false) :
          Option Suspension) = some susp ∧ susp.afectaReservasExistentes = false) ∧
    procesarSuspension tiendaCupo
      (some (suspensionDe (some "actividad") (some "A1") none 0 200 "obras" false)) 3 =
      (tiendaCupo, 0) :=
  ⟨Or.inr ⟨suspensionDe (some "actividad") (some "A1") none 0 200 "obras" false,
      rfl, rfl⟩,
    claim_c8 tiendaCupo
      (some (suspensionDe (some "actividad") (some "A1") none 0 200 "obras" false)) 3
      (Or.inr ⟨suspensionDe (some "actividad") (some "A1") none 0 200 "obras" false,
        rfl, rfl⟩)⟩

/-- Claim C5: under an activity-scoped cascading suspension, the group path
rewrites exactly the reservations selected by the filter of the code, that
filter holds precisely of confirmed reservations of the targeted activity
whose instant lies inside the closed window, each cancelled record gets
`cancelado_por_admin` with the reason of the suspension, and every unselected
reservation is left unchanged. -/
theorem claim_c5 (s : Store) (susp : Suspension) (t : Timestamp) (a1 : String)
    (hafecta : susp.afectaReservasExistentes = true)
    (htipo : susp.tipo = some "actividad")
    (haid : susp.actividadId = some a1) :
    (procesarSuspension s (some susp) t).1.reservas =
      s.reservas.map (fun r =>
        if reservaSuspendible susp r then cancelarReserva susp.motivo t r else r) ∧
    (∀ r : Reserva, reservaSuspendible susp r = true ↔
      (r.estado = "confirmada" ∧ r.actividadId = some a1 ∧
        ∃ f, r.fechaActividad = some f ∧
          susp.fechaInicio ≤ f ∧ f ≤ susp.fechaFin)) ∧
    (∀ r : Reserva,
      (cancelarReserva susp.motivo t r).estado = "cancelado_por_admin" ∧
      (cancelarReserva susp.motivo t r).motivoCancelacion = some susp.motivo) ∧
    (∀ r : Reserva, reservaSuspendible susp r = false →
      (if reservaSuspendible susp r then cancelarReserva susp.motivo t r else r) =
        r) := by
  refine ⟨(procesar_forma s susp t hafecta).2.1, ?_, fun r => ⟨rfl, rfl⟩, ?_⟩
  · intro r
    rcases hfa : r.fechaActividad with _ | f
    · simp [reservaSuspendible, htipo, haid, hfa]
    · simp only [reservaSuspendible, htipo, haid, hfa, Option.isSome_some,
        Bool.and_true, if_true, Bool.and_eq_true, beq_iff_eq, decide_eq_true_eq]
      constructor
      · rintro h
        exact ⟨by tauto, by tauto, f, rfl, by tauto, by tauto⟩
      · rintro ⟨hest, hact, f2, hf2, hw1, hw2⟩
        have hf2' := Option.some.inj hf2
        subst hf2'
        tauto
  · intro r h
    rw [h]
    rfl

theorem claim_c5_witness :
    suspensionC.afectaReservasExistentes = true ∧
    suspensionC.tipo = some "actividad" ∧
    suspensionC.actividadId = some "A1" ∧
    (procesarSuspension tiendaCascada (some suspensionC) 7).1.reservas =
      tiendaCascada.reservas.map (fun r =>
        if reservaSuspendible suspensionC r then
          cancelarReserva suspensionC.motivo 7 r
        else r) :=
  ⟨rfl, rfl, rfl, (claim_c5 tiendaCascada suspensionC 7 "A1" rfl rfl rfl).1⟩

/-- Counterexample to claim C4 as stated: on a successful admission the
controller performs no status write at all, so the processed record stays
`pendiente` - it is never "transitioned from pending to confirmed or
failed by the controller". -/
theorem claim_c4_contra :
    (reservarActividad tiendaExitosa "r1").2 = .exito ∧
    (reservarActividad tiendaExitosa "r1").1.reservas.map Reserva.estado =
      ["pendiente"] ∧
    ("pendiente" : String) ≠ "confirmada" ∧
    ("pendiente" : String) ≠ "fallida" := by
  refine ⟨by decide, by decide, by decide, by decide⟩

lemma suspendible_estado_reserva (susp : Suspension) (r : Reserva)
    (h : reservaSuspendible susp r = true) : r.estado = "confirmada" := by
  unfold reservaSuspendible at h
  simp only [Bool.and_eq_true, beq_iff_eq] at h
  tauto

lemma suspendible_estado_turno (susp : Suspension)
    (filtro : Option (List String)) (t : Turno)
    (h : turnoSuspendible susp filtro t = true) : t.estado = "confirmado" := by
  unfold turnoSuspendible at h
  simp only [Bool.and_eq_true, beq_iff_eq] at h
  tauto

/-- Claim C4, amended: on a failed admission the controller writes the
terminal `fallida` status (with its reason) exactly once; on a successful
admission it performs no status write at all, leaving the record in its
creation status; and the cascade only ever replaces a record by its
`cancelado_por_admin` version when that record was `confirmada`/
`confirmado`, leaving every other record exactly as it was. -/
theorem claim_c4 (s : Store) (rid tid : String) :
    (∀ (r : Reserva) (aid : String) (fecha : Timestamp),
      s.reservas.find? (fun x => x.id == rid) = some r →
      r.actividadId = some aid → r.fechaActividad = some fecha →
      (transaccionReserva s rid aid fecha (pesoCupo r) = .ok () →
        reservarActividad s rid = (s, .exito)) ∧
      (∀ e, transaccionReserva s rid aid fecha (pesoCupo r) = .error e →
        (reservarActividad s rid).1.reservas =
          s.reservas.map (fun x =>
            if x.id == rid then marcarFallidaReserva (mensajeDeFallo e) x else x) ∧
        (reservarActividad s rid).2 = .fallo e)) ∧
    (∀ (t : Turno) (tid2 : String) (fecha : Timestamp),
      s.turnos.find? (fun x => x.id == tid) = some t →
      t.terapiaId = some tid2 → t.fechaTurno = some fecha →
      t.usuarioId.isSome = true →
      (transaccionTurno s tid tid2 fecha = .ok () →
        reservarTurno s tid = (s, .exito)) ∧
      (∀ e, transaccionTurno s tid tid2 fecha = .error e →
        (reservarTurno s tid).1.turnos =
          s.turnos.map (fun x =>
            if x.id == tid then marcarFallidaTurno (mensajeDeFallo e) x else x) ∧
        (reservarTurno s tid).2 = .fallo e)) ∧
    (∀ (susp : Suspension) (t : Timestamp) (x : Reserva),
      x ∈ (procesarSuspension s (some susp) t).1.reservas →
      x ∈ s.reservas ∨
        ∃ y ∈ s.reservas, y.estado = "confirmada" ∧
          x = cancelarReserva susp.motivo t y) ∧
    (∀ (susp : Suspension) (t : Timestamp) (x : Turno),
      x ∈ (procesarSuspension s (some susp) t).1.turnos →
      x ∈ s.turnos ∨
        ∃ y ∈ s.turnos, y.estado = "confirmado" ∧
          x = cancelarTurno susp.motivo t y) := by
  refine ⟨?_, ?_, ?_, ?_⟩
  · intro r aid fecha hfind haid hfecha
    constructor
    · intro htx
      simp only [reservarActividad, hfind, haid, hfecha, htx]
    · intro e htx
      simp only [reservarActividad, hfind, haid, hfecha, htx]
      exact ⟨rfl, trivial⟩
  · intro t tid2 fecha hfind htid hfecha husr
    rcases hu : t.usuarioId with _ | u
    · rw [hu] at husr
      simp at husr
    · constructor
      · intro htx
        simp only [reservarTurno, hfind, htid, hfecha, hu, htx]
      · intro e htx
        simp only [reservarTurno, hfind, htid, hfecha, hu, htx]
        exact ⟨rfl, trivial⟩
  · intro susp t x hx
    cases ha : susp.afectaReservasExistentes
    · have h0 : procesarSuspension s (some susp) t = (s, 0) := by
        simp [procesarSuspension, ha]
      rw [h0] at hx
      exact Or.inl hx
    · rw [(procesar_forma s susp t ha).2.1] at hx
      rcases List.mem_map.mp hx with ⟨y, hy, rfl⟩
      cases hp : reservaSuspendible susp y
      · rw [if_neg (by decide : ¬ (false = true))]
        exact Or.inl hy
      · rw [if_pos rfl]
        exact Or.inr ⟨y, hy, suspendible_estado_reserva susp y hp, rfl⟩
  · intro susp t x hx
    cases ha : susp.afectaReservasExistentes
    · have h0 : procesarSuspension s (some susp) t = (s, 0) := by
        simp [procesarSuspension, ha]
      rw [h0] at hx
      exact Or.inl hx
    · rcases (procesar_forma s susp t ha).2.2 with ⟨_, hsame⟩ | ⟨filtro, _, hmapt⟩
      · rw [hsame] at hx
        exact Or.inl hx
      · rw [hmapt] at hx
        rcases List.mem_map.mp hx with ⟨y, hy, rfl⟩
        cases hp : turnoSuspendible susp filtro y
        · rw [if_neg (by decide : ¬ (false = true))]
          exact Or.inl hy
        · rw [if_pos rfl]
          exact Or.inr ⟨y, hy, suspendible_estado_turno susp filtro y hp, rfl⟩

theorem claim_c4_witness :
    tiendaExitosa.reservas.find? (fun x => x.id == "r1") =
      some (reservaDe "r1" (some "A") (some 0) 1 "pendiente") ∧
    transaccionReserva tiendaExitosa "r1" "A" 0
      (pesoCupo (reservaDe "r1" (some "A") (some 0) 1 "pendiente")) = .ok () ∧
    reservarActividad tiendaExitosa "r1" = (tiendaExitosa, .exito) :=
  ⟨by decide, rfl,
    (((claim_c4 tiendaExitosa "r1" "t").1
      (reservaDe "r1" (some "A") (some 0) 1 "pendiente") "A" 0
      (by decide) (by decide) (by decide)).1 rfl)⟩
